import Mathlib

/-!
Verification development for the `cnfformula.families` modules of the cnfgen
repository.  The formula-family constructors in
`src/cnfformula/families/__init__.py` and
`src/cnfformula/families/randomformulas.py` are embedded shallowly below.

The CNF container (`cnfformula.cnf.CNF`) and the constraint encoders
(`equal_to_constraint`, ...) are imported by the families modules but their
source file is not part of this tree; they are modelled from the
specification (spec.md sections 4.1-4.4).  Headers carried by CNF instances
are free text that is never semantically interpreted (spec section 3) and are
omitted from the model.

Python exceptions are modelled by an `Except` result whose error payload
records, besides the exception class, the CNF instance under construction
at the moment the exception was raised (`none` when the exception was raised
before any CNF instance existed).
-/

set_option autoImplicit false
set_option maxRecDepth 8192
set_option linter.unusedVariables false

namespace Cnfgen

universe u

/-- Exception classes raised by the embedded code. -/
inductive PyErr where
  | valueError
  | runtimeError
  | nameError
  | typeError
deriving DecidableEq, Repr

/-- Modelled from the spec: a CNF instance owns a Variable Registry (ordered
list of names, insertion order = enumeration order) and a Clause Store
(ordered sequence of clauses, each an ordered list of signed literals).
The free-text header is omitted (never semantically interpreted). -/
structure CNF (α : Type u) where
  vars      : List α
  clauses   : List (List (Bool × α))
deriving DecidableEq, Repr

/-- The state of a fresh `CNF()` instance. -/
def CNF.empty {α : Type u} : CNF α := ⟨[], []⟩

/-- Result of running a formula-family constructor: either a finished CNF
instance, or an exception together with the partial CNF instance that existed
when it was raised (`none` if no instance existed yet). -/
abbrev PyResult (α : Type u) := Except (PyErr × Option (CNF α)) (CNF α)

/-- Modelled from the spec (4.1): `add_variable` registers the name if absent
(idempotent) and appends to the enumeration order on first registration only. -/
def CNF.add_variable {α : Type u} [DecidableEq α] (F : CNF α) (v : α) : CNF α :=
  if v ∈ F.vars then F else { F with vars := F.vars ++ [v] }

/-- Modelled from the spec (4.2): a non-strict `add_clause` auto-registers any
unregistered variable referenced by a literal, then stores the clause verbatim. -/
def CNF.add_clause {α : Type u} [DecidableEq α] (F : CNF α) (c : List (Bool × α)) : CNF α :=
  let F := c.foldl (fun F lit => F.add_variable lit.2) F
  { F with clauses := F.clauses ++ [c] }

/-- Modelled from the spec (4.2): a strict `add_clause` fails with a
`ValueError`-class error if any literal's variable is unregistered, without
mutating the Clause Store; otherwise it stores the clause verbatim. -/
def CNF.add_clause_strict {α : Type u} [DecidableEq α] (F : CNF α) (c : List (Bool × α)) :
    Except PyErr (CNF α) :=
  if c.all (fun lit => lit.2 ∈ F.vars) then
    .ok { F with clauses := F.clauses ++ [c] }
  else
    .error .valueError

/-- Sequentially add a list of clauses in strict mode, stopping at the first
strictness violation; the error payload carries the instance at that point. -/
def addClausesStrict {α : Type u} [DecidableEq α] (F : CNF α) :
    List (List (Bool × α)) → PyResult α
  | [] => .ok F
  | c :: cs =>
    match F.add_clause_strict c with
    | .error e => .error (e, some F)
    | .ok F' => addClausesStrict F' cs

/-! ### Python iteration helpers -/

/-- Python `range(n)` as a list of integers. -/
def pyRange (n : Int) : List Int := (List.range n.toNat).map Int.ofNat

/-- Python `range(1, n+1)` as a list of integers. -/
def pyRange1 (n : Int) : List Int := (List.range n.toNat).map (fun i => (i : Int) + 1)

/-- `unify_list` from the source: remove duplicates while maintaining order
(first occurrence wins). -/
def unify_list {α : Type u} [DecidableEq α] (l : List α) : List α :=
  l.foldl (fun acc a => if a ∈ acc then acc else acc ++ [a]) []

/-- `itertools.combinations` over a list: all sublists of the given length,
in the lexicographic position order produced by itertools. -/
def pyCombos {α : Type u} : Nat → List α → List (List α)
  | 0, _ => [[]]
  | _ + 1, [] => []
  | k + 1, a :: as => ((pyCombos k as).map (a :: ·)) ++ pyCombos (k + 1) as

/-- `itertools.combinations(l, 2)` as a list of pairs, in itertools order. -/
def pyCombos2 {α : Type u} [Inhabited α] (l : List α) : List (α × α) :=
  (List.range l.length).flatMap fun i =>
    (List.range l.length).filterMap fun j =>
      if i < j then some (l.getD i default, l.getD j default) else none

/-- `itertools.combinations(l, 3)` as a list of triples, in itertools order. -/
def pyCombos3 {α : Type u} [Inhabited α] (l : List α) : List (α × α × α) :=
  (List.range l.length).flatMap fun i =>
    (List.range l.length).flatMap fun j =>
      (List.range l.length).filterMap fun k =>
        if i < j ∧ j < k then some (l.getD i default, l.getD j default, l.getD k default)
        else none

/-- `itertools.permutations(l, 3)` as a list of triples, in itertools order
(lexicographic in the positions, all positions distinct). -/
def pyPerms3 {α : Type u} [Inhabited α] (l : List α) : List (α × α × α) :=
  (List.range l.length).flatMap fun i =>
    (List.range l.length).flatMap fun j =>
      (List.range l.length).filterMap fun k =>
        if i ≠ j ∧ i ≠ k ∧ j ≠ k then
          some (l.getD i default, l.getD j default, l.getD k default)
        else none

/-- `itertools.product(l, repeat=r)`: all length-`r` tuples over `l`,
leftmost coordinate varying slowest, as produced by itertools. -/
def pyProduct {α : Type u} (l : List α) : Nat → List (List α)
  | 0 => [[]]
  | r + 1 => l.flatMap fun a => (pyProduct l r).map (a :: ·)

/-- Insert into a sorted list (ascending). -/
def insertSorted (a : Nat) : List Nat → List Nat
  | [] => [a]
  | b :: bs => if a ≤ b then a :: b :: bs else b :: insertSorted a bs

/-- Python `sorted` on a list of naturals. -/
def pySorted (l : List Nat) : List Nat := l.foldr insertSorted []

/-- `itertools.combinations(range(M), r)` where a negative `r` raises
`ValueError` (as `itertools.combinations` does for `r < 0`). -/
def pyCombinationsInt {α : Type u} (l : List α) (r : Int) : Except PyErr (List (List α)) :=
  if r < 0 then .error .valueError else .ok (pyCombos r.toNat l)

/-! ### Graphs

The graph-construction collaborator is external (spec section 6): a graph is
a read-only structure exposing an ordered vertex enumeration and the edge
set.  Vertices are integers, as in the networkx graphs the repository uses. -/

/-- An undirected simple graph: ordered vertex enumeration plus edge list. -/
structure Graph where
  nodes : List Int
  edges : List (Int × Int)
deriving DecidableEq, Repr

/-- A directed graph: ordered vertex enumeration (the order returned by
`enumerate_vertices`, spec section 6) plus directed edge list. -/
structure Digraph where
  vertices : List Int
  edges    : List (Int × Int)
deriving DecidableEq, Repr

/-- `G.has_edge(u, v)` on an undirected graph. -/
def Graph.hasEdge (G : Graph) (u v : Int) : Bool :=
  G.edges.any fun e => (e.1 = u ∧ e.2 = v) ∨ (e.1 = v ∧ e.2 = u)

/-- `G.edges(v)` in networkx: the edges incident to `v`, reported with `v`
as the first endpoint, in edge-list order. -/
def Graph.incidentEdges (G : Graph) (v : Int) : List (Int × Int) :=
  (G.edges.filter fun e => e.1 = v ∨ e.2 = v).map fun e =>
    if e.1 = v then e else (e.2, e.1)

/-- `G.degree(v)` on a simple graph: number of incident edges. -/
def Graph.degree (G : Graph) (v : Int) : Nat :=
  (G.incidentEdges v).length

/-- `networkx.complete_graph(n)`: vertices `0, ..., n-1` and all pairs. -/
def completeGraph (n : Int) : Graph :=
  ⟨pyRange n, pyCombos2 (pyRange n)⟩

/-- Predecessors of `v` in enumeration order; since `enumerate_vertices`
fixes the positions, filtering the enumeration is exactly
`sorted(digraph.predecessors(v), key=position)`. -/
def Digraph.preds (D : Digraph) (v : Int) : List Int :=
  D.vertices.filter fun u => (u, v) ∈ D.edges

/-- `digraph.out_degree(v)`. -/
def Digraph.outDegree (D : Digraph) (v : Int) : Nat :=
  (D.edges.filter fun e => e.1 = v).length

/-- One step of Kahn's algorithm: find a vertex with no incoming edge,
remove it together with its outgoing edges. -/
def removeSource (vs : List Int) (es : List (Int × Int)) :
    Option (List Int × List (Int × Int)) :=
  match vs.find? (fun v => ! es.any (fun e => e.2 = v)) with
  | none => none
  | some v => some (vs.erase v, es.filter fun e => e.1 ≠ v)

/-- Fuelled source-elimination loop. -/
def isDagAux : Nat → List Int → List (Int × Int) → Bool
  | 0, vs, _ => vs.isEmpty
  | fuel + 1, vs, es =>
    if vs.isEmpty then true
    else
      match removeSource vs es with
      | none => false
      | some (vs', es') => isDagAux fuel vs' es'

/-- Modelled from the spec: `is_dag` from `cnfformula.graphs` (whose source
file is not in this tree) decides acyclicity of a directed graph; here by
repeated source elimination. -/
def is_dag (D : Digraph) : Bool :=
  isDagAux D.vertices.length D.vertices D.edges

/-! ### Constraint encoders (spec-modelled)

`cnfformula.cnf` is not under `src/`; the encoders are modelled from the
spec, section 4.3. -/

/-- Modelled from the spec (4.3): at-most-k over `vars` is, for every
(k+1)-subset, the negative clause forbidding all of them true. -/
def less_or_equal_constraint {α : Type u} (vars : List α) (k : Nat) :
    List (List (Bool × α)) :=
  (pyCombos (k + 1) vars).map fun s => s.map fun v => (false, v)

/-- Modelled from the spec (4.3): at-least-k over `vars` is, for every
(n-k+1)-subset, the positive clause forbidding all of them false. -/
def greater_or_equal_constraint {α : Type u} (vars : List α) (k : Nat) :
    List (List (Bool × α)) :=
  (pyCombos (vars.length - k + 1) vars).map fun s => s.map fun v => (true, v)

/-- Modelled from the spec (4.3): exactly-k is the conjunction of at-most-k
and at-least-k. -/
def equal_to_constraint {α : Type u} (vars : List α) (k : Nat) :
    List (List (Bool × α)) :=
  less_or_equal_constraint vars k ++ greater_or_equal_constraint vars k

/-! ### Edge-variable naming (from the source)

The three families `SubsetCardinalityFormula`, `MarkstromFormula` and
`PerfectMatchingPrinciple` each define a local `var_name(u, v)` with the
same body: `x_{min,max}` via an `if u <= v` test. -/

/-- Literal brace, written out so the names render as in the source. -/
def lbrace : String := "\x7b"

/-- Literal closing brace. -/
def rbrace : String := "\x7d"

/-- The string `'x_{{{0},{1}}}'.format(u, v)`. -/
def xFmt (u v : Int) : String :=
  "x_" ++ lbrace ++ toString u ++ "," ++ toString v ++ rbrace

/-- `var_name` local to `SubsetCardinalityFormula` (source lines 149-154). -/
def SubsetCardinalityFormula.var_name (u v : Int) : String :=
  if u ≤ v then xFmt u v else xFmt v u

/-- `var_name` local to `MarkstromFormula` (source lines 557-561). -/
def MarkstromFormula.var_name (u v : Int) : String :=
  if u ≤ v then xFmt u v else xFmt v u

/-- `var_name` local to `PerfectMatchingPrinciple` (source lines 665-669). -/
def PerfectMatchingPrinciple.var_name (u v : Int) : String :=
  if u ≤ v then xFmt u v else xFmt v u

/-! ### MarkstromFormula -/

/-- The per-vertex loop of `MarkstromFormula`: check even degree (raising
`ValueError` on an odd-degree vertex), then add the exactly-half cardinality
clauses in strict mode. -/
def markstromLoop (G : Graph) : List Int → CNF String → PyResult String
  | [], F => .ok F
  | v :: vs, F =>
    if G.degree v % 2 = 1 then .error (.valueError, some F)
    else
      let edge_vars := (G.incidentEdges v).map fun e => MarkstromFormula.var_name e.1 e.2
      match addClausesStrict F (equal_to_constraint edge_vars (edge_vars.length / 2)) with
      | .error e => .error e
      | .ok F' => markstromLoop G vs F'

/-- `MarkstromFormula` (source lines 523-578): register a variable for each
edge, then for each vertex check even degree and add the constraint that
exactly half of its incident edge variables are true. -/
def MarkstromFormula (G : Graph) : PyResult String :=
  let F := G.edges.foldl (fun F e => F.add_variable (MarkstromFormula.var_name e.1 e.2))
    CNF.empty
  markstromLoop G G.nodes F

/-! ### PebblingFormula -/

/-- `PebblingFormula` (source lines 168-205): defined only on DAGs; one
variable per vertex in enumeration order; for every vertex the clause
"if all predecessors are pebbled then the vertex is pebbled", and for
sinks the unit clause negating the sink. -/
def PebblingFormula (D : Digraph) : PyResult Int :=
  if ¬ is_dag D then .error (.valueError, none)
  else
    let vertices := D.vertices
    let peb := vertices.foldl CNF.add_variable CNF.empty
    let peb := vertices.foldl (fun F v =>
      let F := F.add_clause ((D.preds v).map (fun p => (false, p)) ++ [(true, v)])
      if D.outDegree v = 0 then F.add_clause [(false, v)] else F) peb
    .ok peb

/-! ### StoneFormula -/

/-- The name `P_{v,j}`. -/
def stoneP (v j : Int) : String :=
  "P_" ++ lbrace ++ toString v ++ "," ++ toString j ++ rbrace

/-- The name `R_{j}`. -/
def stoneR (j : Int) : String :=
  "R_" ++ lbrace ++ toString j ++ rbrace

/-- `StoneFormula` (source lines 207-312): defined only on DAGs with a
non-negative number of stones; variables `P_{v,j}` and `R_{j}`; clauses
"every vertex has a stone", the red-propagation clauses over all tuples of
stones on the predecessors, and blue sinks. -/
def StoneFormula (D : Digraph) (nstones : Int) : PyResult String :=
  if ¬ is_dag D then .error (.valueError, none)
  else if nstones < 0 then .error (.valueError, none)
  else
    let vertices := D.vertices
    let stones := pyRange1 nstones
    let cnf := vertices.foldl (fun F v =>
      stones.foldl (fun F j => F.add_variable (stoneP v j)) F) CNF.empty
    let cnf := stones.foldl (fun F j => F.add_variable (stoneR j)) cnf
    let cnf := vertices.foldl (fun F v =>
      F.add_clause (stones.map fun j => (true, stoneP v j))) cnf
    let cnf := vertices.foldl (fun F v =>
      let F := stones.foldl (fun F j =>
        let pred := D.preds v
        (pyProduct (stones.filter fun s => s ≠ j) pred.length).foldl (fun F stones_tuple =>
          F.add_clause
            (((pred.zip stones_tuple).map fun ps => (false, stoneP ps.1 ps.2))
              ++ [(false, stoneP v j)]
              ++ ((unify_list stones_tuple).map fun s => (false, stoneR s))
              ++ [(true, stoneR j)])) F) F
      if D.outDegree v = 0 then
        stones.foldl (fun F j => F.add_clause [(false, stoneP v j), (false, stoneR j)]) F
      else F) cnf
    .ok cnf

/-! ### GraphOrderingPrinciple and OrderingPrinciple -/

/-- `GraphOrderingPrinciple` (source lines 420-520).  The `knuth` parameter
is the integer variant selector; `plant` drops the last non-minimality
clause.  No clause addition is strict and no exception can be raised, so the
result is a plain CNF instance. -/
def GraphOrderingPrinciple (G : Graph) (total smart plant : Bool) (knuth : Int) :
    CNF String :=
  let V := G.nodes
  -- non-minimality axioms
  let bound := V.length - (if plant then 1 else 0)
  let gop := (List.range bound).foldl (fun F med =>
    let vmed := V.getD med 0
    let clause :=
      ((List.range med).filterMap fun lo =>
        let vlo := V.getD lo 0
        if G.hasEdge vmed vlo then some (true, xFmt vlo vmed) else none)
      ++ ((List.range' (med + 1) (V.length - (med + 1))).filterMap fun hi =>
        let vhi := V.getD hi 0
        if ¬ G.hasEdge vmed vhi then none
        else if smart then some (false, xFmt vmed vhi)
        else some (true, xFmt vhi vmed))
    F.add_clause clause) CNF.empty
  -- transitivity axioms
  let gop :=
    if V.length ≥ 3 then
      if smart then
        (pyCombos3 V).foldl (fun F t =>
          let (v1, v2, v3) := t
          (F.add_clause [(true, xFmt v1 v2), (true, xFmt v2 v3), (false, xFmt v1 v3)]).add_clause
            [(false, xFmt v1 v2), (false, xFmt v2 v3), (true, xFmt v1 v3)]) gop
      else if total then
        (pyCombos3 V).foldl (fun F t =>
          let (v1, v2, v3) := t
          (F.add_clause [(false, xFmt v1 v2), (false, xFmt v2 v3), (false, xFmt v3 v1)]).add_clause
            [(false, xFmt v1 v3), (false, xFmt v3 v2), (false, xFmt v2 v1)]) gop
      else
        (pyPerms3 V).foldl (fun F t =>
          let (v1, v2, v3) := t
          if knuth = 2 ∧ (v2 < v1 ∨ v2 < v3) then F
          else if knuth = 3 ∧ (v3 < v1 ∨ v3 < v2) then F
          else F.add_clause [(false, xFmt v1 v2), (false, xFmt v2 v3), (true, xFmt v1 v3)]) gop
    else gop
  -- antisymmetry and totality axioms (not emitted for the smart encoding)
  if ¬ smart then
    let gop := (pyCombos2 V).foldl (fun F p =>
      F.add_clause [(false, xFmt p.1 p.2), (false, xFmt p.2 p.1)]) gop
    if total then
      (pyCombos2 V).foldl (fun F p =>
        F.add_clause [(true, xFmt p.1 p.2), (true, xFmt p.2 p.1)]) gop
    else gop
  else gop

/-- `OrderingPrinciple` (source lines 316-327): the graph ordering principle
on a complete graph. -/
def OrderingPrinciple (size : Int) (total smart plant : Bool) (knuth : Int) :
    CNF String :=
  GraphOrderingPrinciple (completeGraph size) total smart plant knuth

/-! ### GraphIsomorphism -/

/-- `_graph_isomorphism_var` (source lines 330-331). -/
def graph_isomorphism_var (u v : Int) : String := xFmt u v

/-- The clause list of `GraphIsomorphism` in generation order: totality on
both sides, injectivity on both sides, then edge consistency. -/
def graphIsoClauses (G1 G2 : Graph) : List (List (Bool × String)) :=
  (G1.nodes.map fun u => G2.nodes.map fun v => (true, graph_isomorphism_var u v))
  ++ (G2.nodes.map fun v => G1.nodes.map fun u => (true, graph_isomorphism_var u v))
  ++ (G1.nodes.flatMap fun u => (pyCombos2 G2.nodes).map fun p =>
      [(false, graph_isomorphism_var u p.1), (false, graph_isomorphism_var u p.2)])
  ++ (G2.nodes.flatMap fun v => (pyCombos2 G1.nodes).map fun p =>
      [(false, graph_isomorphism_var p.1 v), (false, graph_isomorphism_var p.2 v)])
  ++ ((pyCombos2 G1.nodes).flatMap fun q =>
      (pyCombos2 G2.nodes).flatMap fun p =>
        if G1.hasEdge q.1 q.2 ≠ G2.hasEdge p.1 p.2 then
          [[(false, graph_isomorphism_var q.1 p.1), (false, graph_isomorphism_var q.2 p.2)],
           [(false, graph_isomorphism_var q.1 p.2), (false, graph_isomorphism_var q.2 p.1)]]
        else [])

/-- `GraphIsomorphism` (source lines 334-389): one variable per vertex pair,
then the totality, injectivity and edge-consistency clauses, all strict. -/
def GraphIsomorphism (G1 G2 : Graph) : PyResult String :=
  let F := (G1.nodes.flatMap fun u => G2.nodes.map fun v => (u, v)).foldl
    (fun F p => F.add_variable (graph_isomorphism_var p.1 p.2)) CNF.empty
  addClausesStrict F (graphIsoClauses G1 G2)

/-! ### Name resolution in the families module

`ParityPrinciple` and `CountingPrinciple` refer to global names that are
bound nowhere; in Python the lookup is performed at call time and raises
`NameError`.  The list below collects every name bound at the top level of
`src/cnfformula/families/__init__.py` (imports included); neither
`GraphMatchingPrinciple` nor `strict_inequality_constraint` is among them,
and neither is a Python builtin. -/

/-- Global names bound in the `cnfformula.families` module. -/
def familiesGlobalNames : List String :=
  ["print_function", "CNF", "enumerate_vertices", "is_dag",
   "parity_constraint", "equal_to_constraint", "less_than_constraint",
   "less_or_equal_constraint", "greater_than_constraint",
   "greater_or_equal_constraint", "loose_minority_constraint",
   "loose_majority_constraint", "collections", "unify_list",
   "PigeonholePrinciple", "GraphPigeonholePrinciple", "sys", "dedent",
   "product", "permutations", "combinations",
   "combinations_with_replacement", "networkx", "FormulaFamilyHelper",
   "SubsetCardinalityFormula", "PebblingFormula", "StoneFormula",
   "OrderingPrinciple", "_graph_isomorphism_var", "GraphIsomorphism",
   "GraphAutomorphism", "GraphOrderingPrinciple", "MarkstromFormula",
   "ColoringFormula", "PerfectMatchingPrinciple", "ParityPrinciple",
   "CountingPrinciple", "RamseyNumber", "TseitinFormula",
   "SubgraphFormula", "RandomKCNF"]

/-- `ParityPrinciple` (source lines 686-692): its body is
`return GraphMatchingPrinciple(networkx.complete_graph(size))`; the callee
name is looked up before the argument is evaluated, so no CNF instance ever
exists.  The name is not bound, so the guarded branch is dead: there is no
definition in the source to embed there, and a fresh empty instance stands
in for the unreachable value. -/
def ParityPrinciple (size : Int) : PyResult String :=
  if "GraphMatchingPrinciple" ∈ familiesGlobalNames then
    .ok CNF.empty
  else .error (.nameError, none)

/-! ### CountingPrinciple -/

/-- The name `Y_{{t1,...,tp}}` — the source concatenates literal double
braces without calling `.format`, so the doubled braces stay in the name. -/
def countingVarName (tpl : List Int) : String :=
  "Y_" ++ lbrace ++ lbrace ++ String.intercalate "," (tpl.map toString)
    ++ rbrace ++ rbrace

/-- The per-element loop of `CountingPrinciple`: add the at-least-one-part
clause, then look up `strict_inequality_constraint`, which is unbound and
raises `NameError`.  The guarded recursion is dead code standing in for the
missing encoder call. -/
def countingLoop (incidence : Int → List (List Int)) :
    List Int → CNF String → PyResult String
  | [], cnf => .ok cnf
  | el :: rest, cnf =>
    let edge_vars := (incidence el).map countingVarName
    let cnf := cnf.add_clause (edge_vars.map fun v => (true, v))
    if "strict_inequality_constraint" ∈ familiesGlobalNames then
      countingLoop incidence rest cnf
    else .error (.nameError, some cnf)

/-- `CountingPrinciple` (source lines 695-733): builds incidence lists from
`combinations(range(M), p)` (which raises `ValueError` for negative `p`),
then for each element adds the at-least clause and attempts the unbound
`strict_inequality_constraint`. -/
def CountingPrinciple (M p : Int) : PyResult String :=
  match pyCombinationsInt (pyRange M) p with
  | .error e => .error (e, some CNF.empty)
  | .ok tpls =>
    let incidence := fun (i : Int) => tpls.filter fun t => i ∈ t
    countingLoop incidence (pyRange M) CNF.empty

/-! ### ColoringFormula -/

/-- The Python value passed as the `colors` parameter: an integer, a list,
or some non-iterable object. -/
inductive PyColors where
  | int : Int → PyColors
  | ilist : List Int → PyColors
  | nonIterable : PyColors
deriving DecidableEq, Repr

/-- `isinstance(list, collections.Iterable)` — the test the source performs:
it asks whether the builtin type `list` is iterable, which is false and does
not depend on the `colors` argument. -/
def isinstanceListIterable : Bool := false

/-- Iterating over the `colors` value: lists iterate, integers and other
non-iterables raise `TypeError`. -/
def pyIterColors : PyColors → Except PyErr (List Int)
  | .ilist l => .ok l
  | _ => .error .typeError

/-- The parameter conversion at the top of `ColoringFormula`:
`if isinstance(colors, int) and colors >= 0: colors = range(1, colors+1)`. -/
def coloringNormalizeColors : PyColors → PyColors
  | .int c => if 0 ≤ c then .ilist (pyRange1 c) else .int c
  | c => c

/-- Per-vertex loop of `ColoringFormula`: the some-color clause and, when
`functional`, the at-most-one-color clauses. -/
def coloringVertexLoop (colors : PyColors) (functional : Bool) :
    List Int → CNF String → PyResult String
  | [], cnf => .ok cnf
  | v :: vs, cnf =>
    match pyIterColors colors with
    | .error e => .error (e, some cnf)
    | .ok cols =>
      let cnf := cnf.add_clause (cols.map fun c => (true, xFmt v c))
      let cnf :=
        if functional then
          (pyCombos2 cols).foldl (fun F p =>
            F.add_clause [(false, xFmt v p.1), (false, xFmt v p.2)]) cnf
        else cnf
      coloringVertexLoop colors functional vs cnf

/-- Per-edge loop of `ColoringFormula`: no two adjacent vertices share a color. -/
def coloringEdgeLoop (colors : PyColors) :
    List (Int × Int) → CNF String → PyResult String
  | [], cnf => .ok cnf
  | e :: es, cnf =>
    match pyIterColors colors with
    | .error err => .error (err, some cnf)
    | .ok cols =>
      coloringEdgeLoop colors es
        (cols.foldl (fun F c =>
          F.add_clause [(false, xFmt e.1 c), (false, xFmt e.2 c)]) cnf)

/-- `ColoringFormula` (source lines 581-642): a non-negative integer
`colors` is replaced by `range(1, colors+1)`; the malformed-colors guard
tests `isinstance(list, collections.Iterable)` and, where taken, constructs
a `ValueError` without raising it (a no-op); then the vertex and edge
clauses are added. -/
def ColoringFormula (G : Graph) (colors : PyColors) (functional : Bool) :
    PyResult String :=
  let colors := coloringNormalizeColors colors
  -- `if not isinstance(list, collections.Iterable): ValueError(...)`:
  -- the ValueError is constructed and discarded, never raised.
  let _guardTaken := ! isinstanceListIterable
  match coloringVertexLoop colors functional G.nodes CNF.empty with
  | .error e => .error e
  | .ok cnf => coloringEdgeLoop colors G.edges cnf

/-! ### Random sampling model

The `random` module is external; it is modelled from the spec (section 6):
a global pseudo-random generator state that `random.seed` deterministically
resets as a function of the seed value.  The state is a raw word stream
plus a position; every primitive consumes draws in order. -/

/-- Global pseudo-random generator state: a stream of raw words and the
current position in it. -/
structure RState where
  stream : Nat → Nat
  pos    : Nat

/-- Consume one raw word. -/
def RState.draw (g : RState) : Nat × RState :=
  (g.stream g.pos, ⟨g.stream, g.pos + 1⟩)

/-- Modelled from the spec: `random.seed(s)` deterministically seeds the
generator as a function of `s` alone. -/
def seedState (s : Int) : RState :=
  ⟨fun i => (s.natAbs + i + 1) * 2654435761 % 4294967296, 0⟩

/-- The reseeding prelude `if seed: random.seed(seed)` shared by both
`RandomKCNF` versions: Python truthiness, so `None` and `0` do not reseed. -/
def reseed (seed : Option Int) (g : RState) : RState :=
  match seed with
  | none => g
  | some s => if s = 0 then g else seedState s

/-- `random.choice([True, False])`: index a two-element list by a draw. -/
def pyChoiceBool (g : RState) : Bool × RState :=
  let (d, g) := g.draw
  ([true, false].getD (d % 2) true, g)

/-- `random.sample(pool, k)`: `k` draws of distinct elements; each draw
removes the chosen element from the pool. -/
def pySample {α : Type u} [Inhabited α] (pool : List α) : Nat → RState → List α × RState
  | 0, g => ([], g)
  | k + 1, g =>
    if pool.isEmpty then ([], g)
    else
      let (d, g) := g.draw
      let i := d % pool.length
      let x := pool.getD i default
      let (xs, g) := pySample (pool.eraseIdx i) k g
      (x :: xs, g)

/-- Draw one clause of the catalog `RandomKCNF`: sample `k` distinct
variable indices from `range(n)`, sort them, and draw one polarity per
index; literals are `(polarity, x + 1)`. -/
def sampleClauseFam (k n : Nat) (g : RState) : List (Bool × Int) × RState :=
  let (idxs, g) := pySample (List.range n) k g
  (pySorted idxs).foldl (fun acc x =>
    let (b, g) := pyChoiceBool acc.2
    (acc.1 ++ [(b, (x : Int) + 1)], g)) ([], g)

/-- The rejection-sampling loop of the catalog `RandomKCNF`
(source lines 986-991): `while len(clauses) < m and t < 10*m`, returning
the collected distinct clauses, the number of attempts and the final
generator state. -/
def sampleLoopFam (k n m : Nat) :
    Nat → List (List (Bool × Int)) → Nat → RState →
      List (List (Bool × Int)) × Nat × RState
  | 0, cs, t, g => (cs, t, g)
  | fuel + 1, cs, t, g =>
    if cs.length < m then
      let (c, g') := sampleClauseFam k n g
      sampleLoopFam k n m fuel (if c ∈ cs then cs else cs ++ [c]) (t + 1) g'
    else (cs, t, g)

/-- `RandomKCNF` from `src/cnfformula/families/__init__.py`
(lines 935-997): reseed, validate, register variables `1..n`, rejection
sample up to `10*m` attempts, and raise `RuntimeError` if fewer than `m`
distinct clauses were collected. -/
def RandomKCNF (k n m : Int) (seed : Option Int) (g : RState) : PyResult Int :=
  let g := reseed seed g
  if k > n ∨ n < 0 ∨ m < 0 ∨ k < 0 then .error (.valueError, none)
  else
    let F := (pyRange1 n).foldl CNF.add_variable CNF.empty
    let (cs, _, _) := sampleLoopFam k.toNat n.toNat m.toNat (10 * m).toNat [] 0 g
    if (cs.length : Int) < m then .error (.runtimeError, some F)
    else .ok (cs.foldl CNF.add_clause F)

namespace randomformulas

/-- The variable name `'x_{0}'.format(i)`. -/
def xName (i : Int) : String := "x_" ++ toString i

/-- Draw one clause of `randomformulas.sample_clauses`: literals are
`(polarity, 'x_i')` over a sorted sample from `indices`. -/
def sampleClauseRf (k n : Nat) (g : RState) : List (Bool × String) × RState :=
  let (idxs, g) := pySample ((List.range n).map (· + 1)) k g
  (pySorted idxs).foldl (fun acc i =>
    let (b, g) := pyChoiceBool acc.2
    (acc.1 ++ [(b, xName i)], g)) ([], g)

/-- The rejection loop of `randomformulas.sample_clauses`
(source lines 17-26). -/
def sampleLoopRf (k n m : Nat) :
    Nat → List (List (Bool × String)) → RState →
      List (List (Bool × String)) × RState
  | 0, cs, g => (cs, g)
  | fuel + 1, cs, g =>
    if cs.length < m then
      let (c, g') := sampleClauseRf k n g
      sampleLoopRf k n m fuel (if c ∈ cs then cs else cs ++ [c]) g'
    else (cs, g)

/-- `all_clauses` (source lines 28-31): for every `k`-combination of the
indices, every polarity tuple from `product([True, False], repeat=3)` —
the repeat count is the literal `3` in the source, not `k` — zipped
(with truncation) against the names. -/
def all_clauses (k n : Nat) : List (List (Bool × String)) :=
  (pyCombos k (pyRange1 (n : Int))).flatMap fun domain =>
    (pyProduct [true, false] 3).map fun polarity =>
      polarity.zip (domain.map fun i => xName i)

/-- `sample_clauses_dense` (source lines 33-34):
`random.sample(list(all_clauses(k, indices)), m)`, which raises
`ValueError` when `m` exceeds the population size. -/
def sample_clauses_dense (k n m : Nat) (g : RState) :
    Except PyErr (List (List (Bool × String))) × RState :=
  let pop := all_clauses k n
  if pop.length < m then (.error .valueError, g)
  else
    let (cs, g) := pySample pop m g
    (.ok cs, g)

/-- `sample_clauses` (source lines 17-26): rejection sampling with a
`10*m` attempt budget, falling back to `sample_clauses_dense` when fewer
than `m` distinct clauses were collected. -/
def sample_clauses (k n m : Nat) (g : RState) :
    Except PyErr (List (List (Bool × String))) × RState :=
  let (cs, g) := sampleLoopRf k n m (10 * m) [] g
  if cs.length < m then sample_clauses_dense k n m g
  else (.ok cs, g)

/-- `RandomKCNF` from `src/cnfformula/families/randomformulas.py`
(lines 37-89): reseed, validate, register variables `x_1..x_n`, then add
the sampled clauses in strict mode. -/
def RandomKCNF (k n m : Int) (seed : Option Int) (g : RState) : PyResult String :=
  let g := reseed seed g
  if n < 0 ∨ m < 0 ∨ k < 0 then .error (.valueError, none)
  else if k > n then .error (.valueError, none)
  else
    let F := ((pyRange1 n).map xName).foldl CNF.add_variable CNF.empty
    let (res, _) := sample_clauses k.toNat n.toNat m.toNat g
    match res with
    | .error e => .error (e, some F)
    | .ok cs => addClausesStrict F cs

end randomformulas

/-! ### Decidability of result equality -/

instance {ε : Type u} {α : Type u} [DecidableEq ε] [DecidableEq α] :
    DecidableEq (Except ε α) := fun a b =>
  match a, b with
  | .ok x, .ok y =>
    if h : x = y then .isTrue (by rw [h])
    else .isFalse (fun hh => h (Except.ok.inj hh))
  | .error x, .error y =>
    if h : x = y then .isTrue (by rw [h])
    else .isFalse (fun hh => h (Except.error.inj hh))
  | .ok _, .error _ => .isFalse (fun hh => Except.noConfusion hh)
  | .error _, .ok _ => .isFalse (fun hh => Except.noConfusion hh)

/-! ### Concrete structures used by the witnesses and counterexamples -/

/-- A raw-word stream that always yields `0`. -/
def gZero : RState := ⟨fun _ => 0, 0⟩

/-- A raw-word stream that always yields `1`. -/
def gOne : RState := ⟨fun _ => 1, 0⟩

/-- The 2-node path graph on vertices `0, 1` (equal to `complete_graph(2)`). -/
def pathGraph2 : Graph := ⟨[0, 1], [(0, 1)]⟩

/-- A 2-node path graph on vertices `1, 2`; both endpoints have odd degree. -/
def oddDegreeGraph : Graph := ⟨[1, 2], [(1, 2)]⟩

/-- The directed 2-cycle: not a DAG. -/
def cyc2 : Digraph := ⟨[1, 2], [(1, 2), (2, 1)]⟩

/-- A 2-vertex chain DAG. -/
def chain2 : Digraph := ⟨[1, 2], [(1, 2)]⟩

/-! ### Helper lemmas about the CNF container -/

lemma add_variable_vars {α : Type u} [DecidableEq α] (F : CNF α) (a : α) :
    (F.add_variable a).vars = if a ∈ F.vars then F.vars else F.vars ++ [a] := by
  unfold CNF.add_variable
  split <;> simp_all

lemma foldl_add_variable_vars {α : Type u} [DecidableEq α] :
    ∀ (l : List α) (F : CNF α),
      (l.foldl CNF.add_variable F).vars
        = l.foldl (fun acc a => if a ∈ acc then acc else acc ++ [a]) F.vars := by
  intro l
  induction l with
  | nil => intro F; rfl
  | cons a l ih =>
    intro F
    rw [List.foldl_cons, List.foldl_cons, ih, add_variable_vars]

lemma foldl_add_variable_map_vars {α : Type u} {β : Type u} [DecidableEq β] (f : α → β) :
    ∀ (l : List α) (F : CNF β),
      (l.foldl (fun F a => F.add_variable (f a)) F).vars
        = (l.map f).foldl (fun acc b => if b ∈ acc then acc else acc ++ [b]) F.vars := by
  intro l
  induction l with
  | nil => intro F; rfl
  | cons a l ih =>
    intro F
    rw [List.foldl_cons, List.map_cons, List.foldl_cons, ih, add_variable_vars]

lemma add_clause_strict_ok_vars {α : Type u} [DecidableEq α] (F F' : CNF α)
    (c : List (Bool × α)) (h : F.add_clause_strict c = .ok F') : F'.vars = F.vars := by
  unfold CNF.add_clause_strict at h
  split at h
  · cases h; rfl
  · cases h

lemma add_clause_strict_error_val {α : Type u} [DecidableEq α] (F : CNF α)
    (c : List (Bool × α)) (e : PyErr) (h : F.add_clause_strict c = .error e) :
    e = .valueError := by
  unfold CNF.add_clause_strict at h
  split at h
  · cases h
  · cases h; rfl

lemma addClausesStrict_ok_vars {α : Type u} [DecidableEq α] :
    ∀ (cs : List (List (Bool × α))) (F F' : CNF α),
      addClausesStrict F cs = .ok F' → F'.vars = F.vars := by
  intro cs
  induction cs with
  | nil => intro F F' h; cases h; rfl
  | cons c cs ih =>
    intro F F' h
    unfold addClausesStrict at h
    cases hc : F.add_clause_strict c with
    | error e => rw [hc] at h; cases h
    | ok F1 =>
      rw [hc] at h
      have h' : addClausesStrict F1 cs = .ok F' := h
      rw [ih F1 F' h', add_clause_strict_ok_vars F F1 c hc]

lemma addClausesStrict_error_shape {α : Type u} [DecidableEq α] :
    ∀ (cs : List (List (Bool × α))) (F : CNF α) (r : PyErr × Option (CNF α)),
      addClausesStrict F cs = .error r →
        ∃ F'', r = (.valueError, some F'') ∧ F''.vars = F.vars := by
  intro cs
  induction cs with
  | nil => intro F r h; cases h
  | cons c cs ih =>
    intro F r h
    unfold addClausesStrict at h
    cases hc : F.add_clause_strict c with
    | error e =>
      rw [hc] at h
      cases h
      exact ⟨F, by rw [add_clause_strict_error_val F c e hc], rfl⟩
    | ok F1 =>
      rw [hc] at h
      have h' : addClausesStrict F1 cs = .error r := h
      obtain ⟨F'', hr, hv⟩ := ih F1 r h'
      exact ⟨F'', hr, by rw [hv, add_clause_strict_ok_vars F F1 c hc]⟩

/-! ### Lemmas about the Markstrom per-vertex loop -/

lemma markstromLoop_odd (G : Graph) :
    ∀ (vs : List Int) (F : CNF String),
      (∃ v ∈ vs, G.degree v % 2 = 1) →
        ∃ F', markstromLoop G vs F = .error (.valueError, some F')
          ∧ F'.vars = F.vars := by
  intro vs
  induction vs with
  | nil =>
    rintro F ⟨v, hv, -⟩
    exact absurd hv (List.not_mem_nil v)
  | cons v0 vs ih =>
    rintro F ⟨v, hv, hodd⟩
    by_cases h0 : G.degree v0 % 2 = 1
    · exact ⟨F, by simp [markstromLoop, h0], rfl⟩
    · have hloop : markstromLoop G (v0 :: vs) F =
        match addClausesStrict F
          (equal_to_constraint
            ((G.incidentEdges v0).map fun e => MarkstromFormula.var_name e.1 e.2)
            (((G.incidentEdges v0).map fun e => MarkstromFormula.var_name e.1 e.2).length / 2)) with
        | .error e => .error e
        | .ok F' => markstromLoop G vs F' := by
        simp [markstromLoop, h0]
      cases hc : addClausesStrict F
          (equal_to_constraint
            ((G.incidentEdges v0).map fun e => MarkstromFormula.var_name e.1 e.2)
            (((G.incidentEdges v0).map fun e => MarkstromFormula.var_name e.1 e.2).length / 2)) with
      | error r =>
        obtain ⟨F'', hr, hvars⟩ := addClausesStrict_error_shape _ F r hc
        refine ⟨F'', ?_, hvars⟩
        rw [hloop, hc, hr]
      | ok F1 =>
        have hv' : v ∈ vs := by
          rcases List.mem_cons.mp hv with rfl | hv'
          · exact absurd hodd h0
          · exact hv'
        obtain ⟨F', hF', hvars⟩ := ih F1 ⟨v, hv', hodd⟩
        refine ⟨F', ?_, ?_⟩
        · rw [hloop, hc]; exact hF'
        · rw [hvars, addClausesStrict_ok_vars _ F F1 hc]

/-! ### Claim theorems -/

/-- Claim C1 (amended): `PebblingFormula` and `StoneFormula` raise a
`ValueError` on a non-acyclic digraph before any CNF instance (and hence
any variable) exists; `MarkstromFormula` raises a `ValueError` on a graph
with an odd-degree vertex, but only after registering all edge variables,
so the instance at the moment of the raise already holds them. -/
theorem claim_C1 (D : Digraph) (s : Int) (G : Graph)
    (hD : is_dag D = false)
    (hodd : (G.nodes.any fun v => G.degree v % 2 = 1) = true) :
    PebblingFormula D = .error (.valueError, none)
    ∧ StoneFormula D s = .error (.valueError, none)
    ∧ ∃ F, MarkstromFormula G = .error (.valueError, some F)
        ∧ F.vars = unify_list (G.edges.map fun e => MarkstromFormula.var_name e.1 e.2) := by
  refine ⟨by simp [PebblingFormula, hD], by simp [StoneFormula, hD], ?_⟩
  obtain ⟨v, hv, hoddv⟩ := List.any_eq_true.mp hodd
  obtain ⟨F', hF', hvars⟩ := markstromLoop_odd G G.nodes
    (G.edges.foldl (fun F e => F.add_variable (MarkstromFormula.var_name e.1 e.2)) CNF.empty)
    ⟨v, hv, of_decide_eq_true hoddv⟩
  refine ⟨F', hF', ?_⟩
  exact hvars.trans
    (foldl_add_variable_map_vars (fun e => MarkstromFormula.var_name e.1 e.2) G.edges CNF.empty)

/-- Witness for C1 at a directed 2-cycle and the 2-node path graph. -/
theorem claim_C1_witness :
    (is_dag cyc2 = false
      ∧ (oddDegreeGraph.nodes.any fun v => oddDegreeGraph.degree v % 2 = 1) = true)
    ∧ (PebblingFormula cyc2 = .error (.valueError, none)
      ∧ StoneFormula cyc2 3 = .error (.valueError, none)
      ∧ ∃ F, MarkstromFormula oddDegreeGraph = .error (.valueError, some F)
          ∧ F.vars = unify_list
              (oddDegreeGraph.edges.map fun e => MarkstromFormula.var_name e.1 e.2)) :=
  ⟨⟨by decide, by decide⟩, claim_C1 cyc2 3 oddDegreeGraph (by decide) (by decide)⟩

/-- Counterexample to C1 as stated: on the 2-node path graph (both vertices
of odd degree) `MarkstromFormula` raises its `ValueError` only after the
edge variable `x_{1,2}` has been registered, so the error does not precede
all variable registration. -/
theorem claim_C1_counterexample :
    MarkstromFormula oddDegreeGraph
      = .error (.valueError, some ⟨["x_" ++ lbrace ++ "1,2" ++ rbrace], []⟩)
    ∧ (["x_" ++ lbrace ++ "1,2" ++ rbrace] : List String).isEmpty = false := by
  constructor
  · rfl
  · rfl

/-- Claim C4 (amended): the graph ordering principle on the 2-node path with
totality (equivalently `OrderingPrinciple(2, total=True)`, with
`smart=False`, `plant=False`, `knuth=0`) produces exactly one
non-minimality clause per element, the antisymmetry clause, and
additionally the totality clause requiring one of the two orderings —
four clauses in all, and no others. -/
theorem claim_C4 :
    (GraphOrderingPrinciple pathGraph2 true false false 0).clauses
      = [[(true, xFmt 1 0)],
         [(true, xFmt 0 1)],
         [(false, xFmt 0 1), (false, xFmt 1 0)],
         [(true, xFmt 0 1), (true, xFmt 1 0)]]
    ∧ OrderingPrinciple 2 true false false 0
      = GraphOrderingPrinciple pathGraph2 true false false 0 := by
  constructor
  · rfl
  · rfl

/-- Counterexample to C4 as stated: the build also contains the totality
clause `x_{0,1} ∨ x_{1,0}`, which is not among the three clauses the claim
allows, so the claim's "and no other clauses" fails. -/
theorem claim_C4_counterexample :
    ((GraphOrderingPrinciple pathGraph2 true false false 0).clauses).contains
        [(true, xFmt 0 1), (true, xFmt 1 0)] = true
    ∧ ([[(true, xFmt 1 0)],
        [(true, xFmt 0 1)],
        [(false, xFmt 0 1), (false, xFmt 1 0)]] :
          List (List (Bool × String))).contains
        [(true, xFmt 0 1), (true, xFmt 1 0)] = false := by
  constructor
  · rfl
  · rfl

/-- Claim C7: in `SubsetCardinalityFormula`, `MarkstromFormula` and
`PerfectMatchingPrinciple` the local edge-variable naming function is
symmetric in its endpoints and equals the name formatted with the
endpoints in canonical (smaller first) order. -/
theorem claim_C7 (u v : Int) :
    (SubsetCardinalityFormula.var_name u v = SubsetCardinalityFormula.var_name v u
      ∧ SubsetCardinalityFormula.var_name u v = xFmt (min u v) (max u v))
    ∧ (MarkstromFormula.var_name u v = MarkstromFormula.var_name v u
      ∧ MarkstromFormula.var_name u v = xFmt (min u v) (max u v))
    ∧ (PerfectMatchingPrinciple.var_name u v = PerfectMatchingPrinciple.var_name v u
      ∧ PerfectMatchingPrinciple.var_name u v = xFmt (min u v) (max u v)) := by
  have hmm : ∀ a b : Int, (if a ≤ b then xFmt a b else xFmt b a) = xFmt (min a b) (max a b) := by
    intro a b
    rcases le_total a b with h | h
    · rw [if_pos h, min_eq_left h, max_eq_right h]
    · rcases eq_or_lt_of_le h with rfl | h'
      · simp
      · rw [if_neg (not_le.mpr h'), min_eq_right h, max_eq_left h]
  have hsym : ∀ a b : Int,
      (if a ≤ b then xFmt a b else xFmt b a) = (if b ≤ a then xFmt b a else xFmt a b) := by
    intro a b
    rw [hmm, hmm, min_comm, max_comm]
  exact ⟨⟨hsym u v, hmm u v⟩, ⟨hsym u v, hmm u v⟩, ⟨hsym u v, hmm u v⟩⟩

/-- Claim C8: `ParityPrinciple` calls `GraphMatchingPrinciple`, a name not
bound anywhere in the module, so every call raises `NameError` before any
CNF instance exists. -/
theorem claim_C8 (size : Int) :
    ParityPrinciple size = .error (.nameError, none) := by
  unfold ParityPrinciple
  rw [if_neg (by decide)]

/-- Claim C9 (amended): for every `M ≥ 1` and `p ≥ 0`, `CountingPrinciple`
raises `NameError` while building the at-most-one-part clauses, because
`strict_inequality_constraint` is unbound; the degenerate `M = 0` call (with
`p ≥ 0`) returns a CNF instance with no variables and no clauses; a
negative `p` instead raises `ValueError` from
`itertools.combinations(range(M), p)`. -/
theorem claim_C9 (M p : Int) (hM : 1 ≤ M) (hp : 0 ≤ p) :
    (∃ F, CountingPrinciple M p = .error (.nameError, some F))
    ∧ CountingPrinciple 0 p = .ok CNF.empty
    ∧ CountingPrinciple M (-1) = .error (.valueError, some CNF.empty) := by
  refine ⟨?_, ?_, ?_⟩
  · obtain ⟨rest, hrest⟩ : ∃ rest, pyRange M = 0 :: rest := by
      refine ⟨((List.range (M.toNat - 1)).map Nat.succ).map Int.ofNat, ?_⟩
      unfold pyRange
      rw [show M.toNat = (M.toNat - 1) + 1 by omega, List.range_succ_eq_map]
      rfl
    unfold CountingPrinciple pyCombinationsInt
    rw [if_neg (not_lt.mpr hp), hrest]
    refine ⟨CNF.empty.add_clause
      (List.map (fun v => (true, v))
        (List.map countingVarName
          (List.filter (fun t => decide ((0 : Int) ∈ t)) (pyCombos p.toNat (0 :: rest))))), ?_⟩
    simp only [countingLoop]
    rw [if_neg (by decide)]
  · unfold CountingPrinciple pyCombinationsInt
    rw [if_neg (not_lt.mpr hp)]
    rfl
  · rfl

/-- Witness for C9 at `M = 1`, `p = 0`. -/
theorem claim_C9_witness :
    ((1 : Int) ≤ 1 ∧ (0 : Int) ≤ 0)
    ∧ ((∃ F, CountingPrinciple 1 0 = .error (.nameError, some F))
      ∧ CountingPrinciple 0 0 = .ok CNF.empty
      ∧ CountingPrinciple 1 (-1) = .error (.valueError, some CNF.empty)) :=
  ⟨⟨by decide, by decide⟩, claim_C9 1 0 (by decide) (by decide)⟩

/-- Counterexample to C9 as stated: at `M = 1`, `p = -1` the call raises
`ValueError` (from `combinations` with a negative size), not the claimed
`NameError`. -/
theorem claim_C9_counterexample :
    CountingPrinciple 1 (-1) = .error (.valueError, some CNF.empty)
    ∧ decide (PyErr.valueError = PyErr.nameError) = false := ⟨rfl, rfl⟩

/-- Does the result carry a `ValueError`-class exception? -/
def isValueErrorResult {α : Type u} : PyResult α → Bool
  | .error (.valueError, _) => true
  | _ => false

lemma pyIterColors_error_shape (colors : PyColors) (e : PyErr)
    (h : pyIterColors colors = .error e) : e = .typeError := by
  cases colors with
  | int n => exact (Except.error.inj h).symm
  | ilist l => exact Except.noConfusion h
  | nonIterable => exact (Except.error.inj h).symm

lemma coloringVertexLoop_error_shape (colors : PyColors) (functional : Bool) :
    ∀ (vs : List Int) (cnf : CNF String) (r : PyErr × Option (CNF String)),
      coloringVertexLoop colors functional vs cnf = .error r → r.1 = .typeError := by
  intro vs
  induction vs with
  | nil => intro cnf r h; cases h
  | cons v vs ih =>
    intro cnf r h
    unfold coloringVertexLoop at h
    cases hit : pyIterColors colors with
    | error e =>
      rw [hit] at h
      cases h
      exact pyIterColors_error_shape colors e hit
    | ok cols =>
      rw [hit] at h
      exact ih _ r h

lemma coloringEdgeLoop_error_shape (colors : PyColors) :
    ∀ (es : List (Int × Int)) (cnf : CNF String) (r : PyErr × Option (CNF String)),
      coloringEdgeLoop colors es cnf = .error r → r.1 = .typeError := by
  intro es
  induction es with
  | nil => intro cnf r h; cases h
  | cons e es ih =>
    intro cnf r h
    unfold coloringEdgeLoop at h
    cases hit : pyIterColors colors with
    | error er =>
      rw [hit] at h
      cases h
      exact pyIterColors_error_shape colors er hit
    | ok cols =>
      rw [hit] at h
      exact ih _ r h

/-- Claim C10: the colors-parameter guard of `ColoringFormula` tests whether
the builtin type `list` is iterable — a constant, argument-independent test —
and even where taken only constructs a `ValueError` without raising it, so
`ColoringFormula` never fails with a `ValueError` for a non-iterable
`colors` parameter (any failure on iteration is a `TypeError`). -/
theorem claim_C10 (G : Graph) (colors : PyColors) (functional : Bool) :
    isinstanceListIterable = false
    ∧ isValueErrorResult (ColoringFormula G colors functional) = false := by
  refine ⟨rfl, ?_⟩
  unfold ColoringFormula
  cases hv : coloringVertexLoop (coloringNormalizeColors colors) functional G.nodes
      CNF.empty with
  | error r =>
    have ht := coloringVertexLoop_error_shape _ functional G.nodes CNF.empty r hv
    simp only [hv]
    obtain ⟨e, oF⟩ := r
    simp only at ht
    rw [ht]
    rfl
  | ok cnf =>
    simp only [hv]
    cases he : coloringEdgeLoop (coloringNormalizeColors colors) G.edges cnf with
    | error r =>
      have ht := coloringEdgeLoop_error_shape _ G.edges cnf r he
      obtain ⟨e, oF⟩ := r
      simp only at ht
      rw [ht]
      rfl
    | ok cnf' => rfl

/-- Claim C5: building a non-randomized formula family twice from
structurally-identical input yields identical ordered variable lists and
identical clause lists, shown for `PebblingFormula` and `GraphIsomorphism`:
both are pure functions of their input structures, consulting no global
state. -/
theorem claim_C5 (D D' : Digraph) (G1 G2 G1' G2' : Graph)
    (h1 : D = D') (h2 : G1 = G1') (h3 : G2 = G2') :
    (PebblingFormula D).map CNF.vars = (PebblingFormula D').map CNF.vars
    ∧ (PebblingFormula D).map CNF.clauses = (PebblingFormula D').map CNF.clauses
    ∧ (GraphIsomorphism G1 G2).map CNF.vars = (GraphIsomorphism G1' G2').map CNF.vars
    ∧ (GraphIsomorphism G1 G2).map CNF.clauses
        = (GraphIsomorphism G1' G2').map CNF.clauses := by
  subst h1; subst h2; subst h3
  exact ⟨rfl, rfl, rfl, rfl⟩

/-- Witness for C5 at the 2-vertex chain DAG and the 2-node path graph. -/
theorem claim_C5_witness :
    (chain2 = chain2 ∧ pathGraph2 = pathGraph2)
    ∧ ((PebblingFormula chain2).map CNF.vars = (PebblingFormula chain2).map CNF.vars
      ∧ (PebblingFormula chain2).map CNF.clauses = (PebblingFormula chain2).map CNF.clauses
      ∧ (GraphIsomorphism pathGraph2 pathGraph2).map CNF.vars
          = (GraphIsomorphism pathGraph2 pathGraph2).map CNF.vars
      ∧ (GraphIsomorphism pathGraph2 pathGraph2).map CNF.clauses
          = (GraphIsomorphism pathGraph2 pathGraph2).map CNF.clauses) :=
  ⟨⟨rfl, rfl⟩,
   claim_C5 chain2 chain2 pathGraph2 pathGraph2 pathGraph2 pathGraph2 rfl rfl rfl⟩

/-- Is the result the parameter-validation error, i.e. a `ValueError` raised
before any CNF instance was constructed? -/
def isValidationError {α : Type u} : PyResult α → Bool
  | .error (.valueError, none) => true
  | _ => false

lemma isValidationError_error_some {α : Type u} (e : PyErr) (F : CNF α) :
    isValidationError (.error (e, some F) : PyResult α) = false := by
  cases e <;> rfl

lemma isValidationError_addClausesStrict {α : Type u} [DecidableEq α] :
    ∀ (cs : List (List (Bool × α))) (F : CNF α),
      isValidationError (addClausesStrict F cs) = false := by
  intro cs
  induction cs with
  | nil => intro F; rfl
  | cons c cs ih =>
    intro F
    unfold addClausesStrict
    cases hc : F.add_clause_strict c with
    | error e => exact isValidationError_error_some e F
    | ok F1 => exact ih F1

/-- Claim C6: both `RandomKCNF` implementations raise the parameter
`ValueError` exactly when some of `k`, `n`, `m` is negative or `k > n`,
and they raise it before any CNF instance (hence any variable or clause)
exists; with valid parameters that validation error is never produced. -/
theorem claim_C6 (k n m : Int) (seed : Option Int) (g : RState) :
    ((k < 0 ∨ n < 0 ∨ m < 0 ∨ n < k) →
      RandomKCNF k n m seed g = .error (.valueError, none)
      ∧ randomformulas.RandomKCNF k n m seed g = .error (.valueError, none))
    ∧ (0 ≤ k → k ≤ n → 0 ≤ m →
      isValidationError (RandomKCNF k n m seed g) = false
      ∧ isValidationError (randomformulas.RandomKCNF k n m seed g) = false) := by
  constructor
  · intro h
    constructor
    · simp only [RandomKCNF]
      rw [if_pos (by omega)]
    · simp only [randomformulas.RandomKCNF]
      split
      · rfl
      · rw [if_pos (by omega)]
  · intro hk hkn hm
    constructor
    · simp only [RandomKCNF]
      rw [if_neg (by omega)]
      rcases hsl : sampleLoopFam k.toNat n.toNat m.toNat (10 * m).toNat [] 0
          (reseed seed g) with ⟨cs, t, g2⟩
      split
      · rfl
      · rfl
    · simp only [randomformulas.RandomKCNF]
      rw [if_neg (by omega), if_neg (by omega)]
      rcases hsc : randomformulas.sample_clauses k.toNat n.toNat m.toNat
          (reseed seed g) with ⟨res, g2⟩
      cases res with
      | error e => exact isValidationError_error_some e _
      | ok cs => exact isValidationError_addClausesStrict cs _

/-- Witness for C6: invalid parameters `(k, n, m) = (-1, 1, 1)` raise the
validation error; valid parameters `(1, 1, 1)` never do. -/
theorem claim_C6_witness :
    ((RandomKCNF (-1) 1 1 none gZero = .error (.valueError, none)
      ∧ randomformulas.RandomKCNF (-1) 1 1 none gZero = .error (.valueError, none))
    ∧ (isValidationError (RandomKCNF 1 1 1 none gZero) = false
      ∧ isValidationError (randomformulas.RandomKCNF 1 1 1 none gZero) = false)) :=
  ⟨(claim_C6 (-1) 1 1 none gZero).1 (Or.inl (by decide)),
   (claim_C6 1 1 1 none gZero).2 (by decide) (by decide) (by decide)⟩

/-- Claim C3 (amended): for every nonzero seed, the generator is reseeded
deterministically and two calls with identical `(k, n, m, seed)` produce
identical results regardless of the ambient generator state; the reseeding
guard is `if seed:`, Python truthiness, so this holds for truthy (nonzero)
seeds only. -/
theorem claim_C3 (k n m : Int) (s : Int) (g1 g2 : RState) (hs : s ≠ 0) :
    RandomKCNF k n m (some s) g1 = RandomKCNF k n m (some s) g2
    ∧ randomformulas.RandomKCNF k n m (some s) g1
        = randomformulas.RandomKCNF k n m (some s) g2 := by
  have hr : ∀ g : RState, reseed (some s) g = seedState s := by
    intro g
    simp [reseed, hs]
  constructor
  · simp only [RandomKCNF]
    rw [hr g1, hr g2]
  · simp only [randomformulas.RandomKCNF]
    rw [hr g1, hr g2]

/-- Witness for C3 at seed `7` and two distinct ambient generator states. -/
theorem claim_C3_witness :
    decide ((7 : Int) = 0) = false
    ∧ (RandomKCNF 1 2 2 (some 7) gZero = RandomKCNF 1 2 2 (some 7) gOne
      ∧ randomformulas.RandomKCNF 1 2 2 (some 7) gZero
          = randomformulas.RandomKCNF 1 2 2 (some 7) gOne) :=
  ⟨rfl, claim_C3 1 2 2 7 gZero gOne (by decide)⟩

/-- Counterexample to C3 as stated: the seed `0` is provided (non-`None`)
but falsy, so `if seed:` skips the reseeding and the sampled clause set
depends on the ambient generator state: two calls with identical
`(k, n, m, seed) = (1, 1, 1, 0)` return different clause sets. -/
theorem claim_C3_counterexample :
    RandomKCNF 1 1 1 (some 0) gZero = .ok ⟨[1], [[(true, 1)]]⟩
    ∧ RandomKCNF 1 1 1 (some 0) gOne = .ok ⟨[1], [[(false, 1)]]⟩
    ∧ decide (([[((true : Bool), (1 : Int))]] : List (List (Bool × Int)))
        = [[(false, 1)]]) = false :=
  ⟨rfl, rfl, rfl⟩

lemma sampleLoopFam_attempts (k n m : Nat) :
    ∀ (fuel : Nat) (cs : List (List (Bool × Int))) (t : Nat) (g : RState),
      (sampleLoopFam k n m fuel cs t g).2.1 ≤ t + fuel := by
  intro fuel
  induction fuel with
  | zero => intro cs t g; simp [sampleLoopFam]
  | succ fuel ih =>
    intro cs t g
    unfold sampleLoopFam
    by_cases h : cs.length < m
    · rw [if_pos h]
      rcases hsc : sampleClauseFam k n g with ⟨c, g'⟩
      calc (sampleLoopFam k n m fuel (if c ∈ cs then cs else cs ++ [c]) (t + 1) g').2.1
          ≤ (t + 1) + fuel := ih _ _ _
        _ = t + (fuel + 1) := by omega
    · rw [if_neg h]
      simp

/-- Claim C2 (amended): the catalog `RandomKCNF`
(`families/__init__.py`) samples clauses without replacement using at most
`10*m` rejection attempts, and when those attempts leave fewer than `m`
distinct clauses it fails with a `RuntimeError`-class error.  (The
`randomformulas.py` variant instead falls back to exhaustive dense
sampling; see the counterexample.) -/
theorem claim_C2 (k n m : Int) (seed : Option Int) (g : RState)
    (hk : 0 ≤ k) (hkn : k ≤ n) (hm : 0 ≤ m) :
    (sampleLoopFam k.toNat n.toNat m.toNat (10 * m).toNat [] 0 (reseed seed g)).2.1
        ≤ (10 * m).toNat
    ∧ (((sampleLoopFam k.toNat n.toNat m.toNat (10 * m).toNat [] 0
          (reseed seed g)).1.length : Int) < m →
        RandomKCNF k n m seed g
          = .error (.runtimeError, some ((pyRange1 n).foldl CNF.add_variable CNF.empty))) := by
  constructor
  · simpa using sampleLoopFam_attempts k.toNat n.toNat m.toNat (10 * m).toNat [] 0
      (reseed seed g)
  · intro hlen
    simp only [RandomKCNF]
    rw [if_neg (by omega)]
    rcases hsl : sampleLoopFam k.toNat n.toNat m.toNat (10 * m).toNat [] 0
        (reseed seed g) with ⟨cs, t, g2⟩
    rw [hsl] at hlen
    rw [if_pos hlen]

/-- Witness for C2 at `(k, n, m) = (1, 1, 2)` with the constant-zero
generator stream: only one distinct clause exists to sample, so the
rejection budget is exhausted and `RuntimeError` is raised. -/
theorem claim_C2_witness :
    ((0 : Int) ≤ 1 ∧ (1 : Int) ≤ 1 ∧ (0 : Int) ≤ 2)
    ∧ ((sampleLoopFam (1 : Int).toNat (1 : Int).toNat (2 : Int).toNat
          ((10 * 2 : Int)).toNat [] 0 (reseed none gZero)).2.1 ≤ ((10 * 2 : Int)).toNat
      ∧ RandomKCNF 1 1 2 none gZero
          = .error (.runtimeError, some ((pyRange1 1).foldl CNF.add_variable CNF.empty))) :=
  ⟨⟨by decide, by decide, by decide⟩,
   ⟨(claim_C2 1 1 2 none gZero (by decide) (by decide) (by decide)).1,
    (claim_C2 1 1 2 none gZero (by decide) (by decide) (by decide)).2 (by decide)⟩⟩

/-- Counterexample to C2 as stated: with `(k, n, m) = (1, 1, 2)` and the
constant-zero stream, the `randomformulas.py` `RandomKCNF` collects only
one distinct clause in its `10*m` rejection attempts, yet does not raise
`RuntimeError`: it falls back to dense sampling and returns a full
formula. -/
theorem claim_C2_counterexample :
    (randomformulas.sampleLoopRf 1 1 2 20 [] gZero).1.length = 1
    ∧ randomformulas.RandomKCNF 1 1 2 none gZero
        = .ok ⟨["x_1"], [[(true, "x_1")], [(true, "x_1")]]⟩
    ∧ (randomformulas.RandomKCNF 1 1 2 none gZero).isOk = true :=
  ⟨rfl, rfl, rfl⟩

end Cnfgen
